import Mathlib

/-!
Verification development for the expense-exporter row pipeline
(`src/utils/file_process.py`, `src/utils/postgres_process.py`,
`src/utils/mongodb_process.py`, `src/utils/cloud_helper.py`).

The module `file_process.py` defines the class `FileProcessor` twice at module
level; the second definition (lines 673-915) shadows the first (lines 28-344),
so the second one is the class that actually runs.  Both variants are embedded
here: `processRowLive` / `processFileLive` for the live (second) definition and
`processRowV1` / `processFileV1Expand` for the shadowed first definition.

Pandas cells are modelled as `Option String` (`none` = NaN), a row as an
ordered association list of column name to cell, and a data frame as a column
list plus a row list.  External I/O (HTTP download, S3/Azure upload, MongoDB,
PostgreSQL) is modelled by per-row oracles (`RowEnv`) giving each call's
result, and the orchestrator's observable calls are recorded in an `Effect`
trace.  `df.at[idx, col] = v` writes are recorded as `(col, value)` pairs.

One caveat on the annotated-output model: in the source,
`pd.DataFrame(expanded_rows)` (line 751) keeps each clone's parent index
label and `df.at` writes are label-based, so rows expanded from one
multi-link parent alias one another's output cells.  `processFileLive` below
applies each iteration's writes to its own positional row; the theorems that
look at the annotated output therefore confine themselves to facts that hold
under either write-targeting — row counts, and the presence of a status in
every cell (each row's own iteration writes its status, whichever cells the
write lands on).  Per-iteration facts (the writes an iteration issues, its
effects, its outcome and counter contribution) are unaffected by the
aliasing, and `processRowLive` provably never consults the index label it is
handed, so duplicated labels change no outcome.
-/

set_option autoImplicit false

namespace ExpenseExporter

/-- A pandas cell: `none` models NaN/None, `some s` a string value. -/
abbrev Cell := Option String

/-- Python `str(cell)`: `str(float("nan"))` is the string `"nan"`. -/
def cellStr (c : Cell) : String :=
  c.getD "nan"

/-- A row: ordered mapping of column name to cell (a pandas Series). -/
structure Row where
  cells : List (String × Cell)
deriving DecidableEq, Repr

/-- Look a column up in a row: `none` = column absent, `some c` = cell `c`. -/
def Row.find (r : Row) (c : String) : Option Cell :=
  (r.cells.find? (fun p => p.1 == c)).map Prod.snd

/-- The value at a column, collapsing "column absent" and NaN to `none`. -/
def Row.get (r : Row) (c : String) : Cell :=
  (r.find c).join

/-- Replace the first binding of a key, or append a new one (Series item
assignment `row[c] = v`). -/
def setCells : List (String × Cell) → String → Cell → List (String × Cell)
  | [], c, v => [(c, v)]
  | (k, w) :: rest, c, v =>
      if k == c then (c, v) :: rest else (k, w) :: setCells rest c v

/-- `row[c] = v` on a row. -/
def Row.set (r : Row) (c : String) (v : Cell) : Row :=
  ⟨setCells r.cells c v⟩

/-- A loaded table: column names plus rows. -/
structure DataFrame where
  cols : List String
  rows : List Row
deriving DecidableEq, Repr

/-- Python `str.strip` on the character list of a string (ASCII whitespace). -/
def stripChars (l : List Char) : List Char :=
  ((l.dropWhile Char.isWhitespace).reverse.dropWhile Char.isWhitespace).reverse

/-- Python `str.strip`. -/
def pyStrip (s : String) : String :=
  ⟨stripChars s.data⟩

/-- Python `str.replace(a, b)` for single-character `a`, `b`. -/
def replaceChar (a b : Char) (l : List Char) : List Char :=
  l.map (fun c => if c = a then b else c)

/-- Python `str.split(sep)` for a single-character separator:
`"".split(",") = [""]`, and adjacent separators yield empty pieces. -/
def splitOnChar (sep : Char) (l : List Char) : List (List Char) :=
  l.foldr
    (fun c acc =>
      match acc with
      | [] => [[c]]
      | cur :: rest =>
          if c = sep then [] :: cur :: rest else (c :: cur) :: rest)
    [[]]

/-- Split an attachment cell into link tokens (file_process.py lines 739-740):
strip the cell, turn `;` and `|` into `,`, split on `,`, strip each token and
drop empty ones. -/
def splitLinks (s : String) : List String :=
  ((splitOnChar ','
        (replaceChar '|' ',' (replaceChar ';' ',' (stripChars s.data)))).map
      (fun t => String.mk (stripChars t))).filter (fun t => t != "")

/-- Expand one row on its `file_link` cell (lines 734-749, identical logic in
the shadowed first variant at lines 68-83): a missing column or NaN cell
passes through; zero or one token passes through; `n ≥ 2` tokens emit one
clone per token with `file_link` rewritten to that token. -/
def expandRow (r : Row) : List Row :=
  match r.find "file_link" with
  | none => [r]
  | some none => [r]
  | some (some s) =>
      let links := splitLinks s
      if links.length ≤ 1 then [r]
      else links.map (fun l => r.set "file_link" (some l))

/-- The synthesized dummy URL of line 727. -/
def synthUrl (i : Nat) : String :=
  "https://files.finkraft.ai/invoices/file_" ++ toString (i + 1) ++ ".pdf"

/-- Assign a whole column positionally (`df[c] = [...]`). -/
def setColCells : List Row → String → (Nat → Cell) → Nat → List Row
  | [], _, _, _ => []
  | r :: rest, c, vals, i => r.set c (vals i) :: setColCells rest c vals (i + 1)

/-- `df[c] = values` : every row's cell at `c` is overwritten; the column name
is appended when new. -/
def DataFrame.setColumn (df : DataFrame) (c : String) (vals : Nat → Cell) :
    DataFrame :=
  { cols := if c ∈ df.cols then df.cols else df.cols ++ [c],
    rows := setColCells df.rows c vals 0 }

/-- Lines 725-730 of the live `process_file`: when no `external_file_link`
column exists, overwrite/create `file_link` with synthesized URLs. -/
def addDummyFileLink (df : DataFrame) : DataFrame :=
  if "external_file_link" ∈ df.cols then df
  else df.setColumn "file_link" (fun i => some (synthUrl i))

/-- Lines 755-757: `df[col] = None` only when the column is absent. -/
def DataFrame.ensureCol (df : DataFrame) (c : String) : DataFrame :=
  if c ∈ df.cols then df else df.setColumn c (fun _ => none)

/-- Ensure the three derived output columns exist (lines 755-757). -/
def ensureDerivedCols (df : DataFrame) : DataFrame :=
  ((df.ensureCol "s3_link").ensureCol "status").ensureCol "file_hash"

/-- The cloud-storage interface of `cloud_helper.py` lines 13-29.  The
abstract class (and both of its implementations) expose exactly these three
operations; there is no delete operation. -/
structure CloudHelper where
  upload_blob : String → String → Bool
  upload_output_file : String → Option String
  get_file_url : String → String

/-- Result of `PostgresProcess.insert_full_invoice_data` on success (the
Python dict `{"id": str(record_id), "is_duplicate": bool}`). -/
structure PgResult where
  id : String
  is_duplicate : Bool
deriving DecidableEq, Repr

/-- Observable external calls made while processing a row.  The two delete
constructors exist only as observation vocabulary: neither `CloudHelper` nor
`MongoDBProcess` defines a delete operation, so the orchestrator can never
emit them. -/
inductive Effect where
  | downloadReq (url : String)
  | uploadBlob (localPath key : String)
  | mongoDupCheck (hash : String)
  | mongoInsert (hash : String)
  | pgInsert (hash : String)
  | mongoDelete (docId : String)
  | objectDelete (key : String)
  | removeLocal (path : String)
deriving DecidableEq, Repr

/-- Whether an effect is a compensating delete. -/
def Effect.isDelete : Effect → Bool
  | .mongoDelete _ => true
  | .objectDelete _ => true
  | _ => false

/-- Per-row oracle for the external collaborators: result of
`_download_pdf`, the MD5 of the downloaded file, the MongoDB duplicate-check
answer (consulted only by the shadowed first variant), the MongoDB insert
result and the PostgreSQL insert result. -/
structure RowEnv where
  download : Option String
  md5 : String
  mongoDup : Bool
  mongoInsertId : Option String
  pgResult : Option PgResult

/-- Terminal disposition of one row in the counters of `process_file`. -/
inductive Outcome where
  | success
  | failed
deriving DecidableEq, Repr

/-- What processing one row produced: the `df.at[idx, col] = value` writes in
order, the external calls in order, and which counter was bumped. -/
structure RowResult where
  writes : List (String × String)
  effects : List Effect
  outcome : Outcome
deriving DecidableEq, Repr

/-- Last value written to a field (the cell's final content). -/
def lastWrite (ws : List (String × String)) (f : String) : Option String :=
  ws.foldl (fun a w => if w.1 == f then some w.2 else a) none

/-- The row's final `status` cell content. -/
def RowResult.finalStatus (res : RowResult) : Option String :=
  lastWrite res.writes "status"

/-- How many times a field was written during the row's processing. -/
def writeCount (res : RowResult) (f : String) : Nat :=
  (res.writes.filter (fun w => w.1 == f)).length

/-- `s` begins with `pre`; used to state the claims' "status begins with
FAILED:" conditions. -/
def strStarts (pre s : String) : Bool :=
  pre.data.isPrefixOf s.data

/-- Module constant of the live `file_process.py` (line 686). -/
def TEST_BYPASS_DOWNLOAD_AND_UPLOAD : Bool := false

/-- `os.path.basename` for the slash-separated paths this code builds. -/
def basename (p : String) : String :=
  String.mk (((splitOnChar '/' p.data).getLast?).getD [])

/-- The S3 key of the live variant (line 792). -/
def liveS3Key (localPath : String) : String :=
  "fink-hotel_invoice_scraped/tmc_portal/tata_capital/" ++ basename localPath

/-- The dummy S3 link of the live test branch (line 778). -/
def testS3Link (idx : Nat) : String :=
  "https://s3-link.com/fink-hotel_invoice_scraped/tmc_portal/tata_capital/file_"
    ++ toString (idx + 1) ++ ".pdf"

/-- Message of the `AttributeError` raised when `self.cloud_helper` was never
assigned (quotes of the Python message omitted). -/
def attrErrorMsg : String :=
  "FileProcessor object has no attribute cloud_helper"

/-- Message of the `KeyError` raised by `row[\x22file_link\x22]` when the
column is absent (quotes of the Python message omitted). -/
def keyErrorMsg : String := "file_link"

/-- Lines 805-862 of the live `process_file`: MongoDB insert then PostgreSQL
insert, shared by the test and real branches.  `w0`/`eff0` are the writes and
effects accumulated before this point. -/
def persistStages (env : RowEnv) (w0 : List (String × String))
    (eff0 : List Effect) (fileHash : String) : RowResult :=
  match env.mongoInsertId with
  | none =>
      { writes := w0 ++ [("status", "FAILED: MongoDB insert failed")],
        effects := eff0 ++ [.mongoInsert fileHash], outcome := .failed }
  | some _ =>
      match env.pgResult with
      | none =>
          { writes := w0 ++ [("status", "FAILED: PostgreSQL insert failed")],
            effects := eff0 ++ [.mongoInsert fileHash, .pgInsert fileHash],
            outcome := .failed }
      | some _ =>
          { writes := w0,
            effects := eff0 ++ [.mongoInsert fileHash, .pgInsert fileHash],
            outcome := .success }

/-- One iteration of the live per-row loop (lines 762-870).  `ch` is the
value of `self.cloud_helper`: `none` when the attribute was never assigned,
in which case the attribute access at the upload step raises an
`AttributeError` that the per-row handler (lines 866-870) catches.  A missing
`file_link` column raises a `KeyError` at line 765, likewise caught. -/
def processRowLive (ch : Option CloudHelper) (env : RowEnv) (r : Row)
    (idx : Nat) : RowResult :=
  match r.find "file_link" with
  | none =>
      { writes := [("status", "FAILED: " ++ keyErrorMsg)], effects := [],
        outcome := .failed }
  | some cell =>
      let file_link := pyStrip (cellStr cell)
      if file_link = "" then
        { writes := [("status", "FAILED: Missing file_link")], effects := [],
          outcome := .failed }
      else if TEST_BYPASS_DOWNLOAD_AND_UPLOAD then
        let fileHash := "test_hash_" ++ toString (idx + 1)
        persistStages env
          [("file_hash", fileHash), ("s3_link", testS3Link idx),
           ("status", "SUCCESS (TEST)")] [] fileHash
      else
        match env.download with
        | none =>
            { writes := [("status", "FAILED: PDF download failed")],
              effects := [.downloadReq file_link], outcome := .failed }
        | some localPath =>
            let fileHash := env.md5
            let s3Key := liveS3Key localPath
            match ch with
            | none =>
                { writes := [("status", "FAILED: " ++ attrErrorMsg)],
                  effects := [.downloadReq file_link], outcome := .failed }
            | some helper =>
                if helper.upload_blob localPath s3Key then
                  persistStages env
                    [("file_hash", fileHash),
                     ("s3_link", helper.get_file_url s3Key),
                     ("status", "SUCCESS")]
                    [.downloadReq file_link, .uploadBlob localPath s3Key]
                    fileHash
                else
                  { writes := [("status", "FAILED: Upload failed")],
                    effects := [.downloadReq file_link,
                                .uploadBlob localPath s3Key],
                    outcome := .failed }

/-- The S3 key of the shadowed first variant (line 124); `client` is the
env-configured `CLIENT` value. -/
def v1S3Key (client : String) (idx : Nat) : String :=
  "fink-hotel-invoice-scraped/tmc_portal/" ++ client ++ "/file_"
    ++ toString (idx + 1) ++ ".pdf"

/-- One iteration of the shadowed first variant's per-row loop
(`file_process.py` lines 98-236).  Its `__init__` always assigns
`cloud_helper`, so `ch` is not optional here.  The MongoDB duplicate gate
(lines 140-145) runs only after the upload and the SUCCESS status write
already happened (lines 126-137); a duplicate row bumps `failed_count`. -/
def processRowV1 (ch : CloudHelper) (client : String) (env : RowEnv) (r : Row)
    (idx : Nat) : RowResult :=
  match r.find "file_link" with
  | none =>
      { writes := [("status", "FAILED: Missing file_link")], effects := [],
        outcome := .failed }
  | some none =>
      { writes := [("status", "FAILED: Missing file_link")], effects := [],
        outcome := .failed }
  | some (some s) =>
      let fileUrl := "https://wormhole.app/" ++ pyStrip s
      match env.download with
      | none =>
          { writes := [("status", "FAILED: PDF download failed")],
            effects := [.downloadReq fileUrl], outcome := .failed }
      | some localPath =>
          let fileHash := env.md5
          let s3Key := v1S3Key client idx
          if ch.upload_blob localPath s3Key then
            let w2 := [("file_hash", fileHash),
                       ("s3_link", ch.get_file_url s3Key),
                       ("status", "SUCCESS")]
            let eff2 := [Effect.downloadReq fileUrl,
                         Effect.uploadBlob localPath s3Key,
                         Effect.mongoDupCheck fileHash]
            if env.mongoDup then
              { writes := w2 ++ [("status", "DUPLICATE: File already processed")],
                effects := eff2, outcome := .failed }
            else
              match env.mongoInsertId with
              | none =>
                  { writes := w2 ++ [("status", "FAILED: MongoDB insert failed")],
                    effects := eff2 ++ [.mongoInsert fileHash],
                    outcome := .failed }
              | some _ =>
                  match env.pgResult with
                  | none =>
                      { writes :=
                          w2 ++ [("status", "FAILED: PostgreSQL insert failed")],
                        effects := eff2 ++ [.mongoInsert fileHash,
                                            .pgInsert fileHash],
                        outcome := .failed }
                  | some _ =>
                      { writes := w2,
                        effects := eff2 ++ [.mongoInsert fileHash,
                                            .pgInsert fileHash,
                                            .removeLocal localPath],
                        outcome := .success }
          else
            { writes := [("file_hash", fileHash),
                         ("status", "FAILED: S3 upload failed")],
              effects := [.downloadReq fileUrl, .uploadBlob localPath s3Key],
              outcome := .failed }

/-- The first variant's batch prologue (lines 61-64 and 67-86): it returns
`False` (here `none`) when the `file_link` column is absent, otherwise
expands the rows. -/
def processFileV1Expand (df : DataFrame) : Option DataFrame :=
  if "file_link" ∈ df.cols then
    some { cols := df.cols, rows := (df.rows.map expandRow).flatten }
  else none

/-- The aggregate counters of the live batch loop: `processed_count`,
`success_count`, `failed_count` (lines 759, 768-769, 861-862 and the failure
branches). -/
def tallyStep (c : Nat × Nat × Nat) (res : RowResult) : Nat × Nat × Nat :=
  match res.outcome with
  | .success => (c.1 + 1, c.2.1 + 1, c.2.2)
  | .failed => (c.1, c.2.1, c.2.2 + 1)

def tally (results : List RowResult) : Nat × Nat × Nat :=
  results.foldl tallyStep (0, 0, 0)

/-- Apply a row's `df.at[idx, col] = value` writes to the row. -/
def applyWrites (r : Row) (ws : List (String × String)) : Row :=
  ws.foldl (fun acc w => acc.set w.1 (some w.2)) r

/-- The live batch loop body over the expanded rows, mirroring
`for idx, row in df.iterrows()` (line 762): each row is processed with its
own oracle results.  The `Nat` fed as the Python `idx` is the position; in
the source, rows expanded from one parent share the parent's duplicated
index label instead — immaterial for the results, because the live row
processing never consults `idx` (see `processRowLive_idx_irrelevant`), and
the `df.at` write targets are not resolved here (writes are recorded, not
applied). -/
def runRows (ch : Option CloudHelper) (env : Nat → RowEnv) :
    List Row → Nat → List (Row × RowResult)
  | [], _ => []
  | r :: rest, i => (r, processRowLive ch (env i) r i) :: runRows ch env rest (i + 1)

/-- The table the live batch iterates: dummy-link synthesis (lines 725-730),
link expansion (lines 733-752), derived columns (lines 755-757). -/
def livePrepared (df : DataFrame) : DataFrame :=
  let df1 := addDummyFileLink df
  ensureDerivedCols { cols := df1.cols, rows := (df1.rows.map expandRow).flatten }

/-- Result of the live `process_file` (the parts after input loading): the
returned boolean, the annotated rows, and the three counters of the summary. -/
structure BatchResult where
  ok : Bool
  finalRows : List Row
  processed : Nat
  success : Nat
  failed : Nat
deriving Repr

/-- The live `process_file` from the point where the table is loaded
(lines 722-895).  Saving and uploading the output artifact are I/O and are
modelled as succeeding, so the function returns `True` (line 895); the input
validation and format dispatch of lines 709-720 concern the filesystem and
are outside this embedding.  `finalRows` applies each iteration's writes to
its own positional row; in the source the label-based `df.at` writes of
expanded siblings also hit one another's cells (see the module comment), so
only aliasing-insensitive facts about `finalRows` are proved: its length,
and that every cell holds a status. -/
def processFileLive (ch : Option CloudHelper) (env : Nat → RowEnv)
    (df : DataFrame) : BatchResult :=
  let results := runRows ch env (livePrepared df).rows 0
  let c := tally (results.map Prod.snd)
  { ok := true,
    finalRows := results.map (fun pr => applyWrites pr.1 pr.2.writes),
    processed := c.1, success := c.2.1, failed := c.2.2 }

/-- The value of `self.cloud_helper` on a freshly constructed live
`FileProcessor`: the live class (second definition) names its initializer
`init` (line 699) rather than `__init__`, so `FileProcessor()` runs the
default object initializer and the attribute is never assigned. -/
def fileProcessorNew : Option CloudHelper := none

/-- What `FileProcessor.init` would assign if it were ever called
(line 701); it is not invoked by `FileProcessor()`. -/
def fileProcessorInitWouldAssign (helper : CloudHelper) : Option CloudHelper :=
  if TEST_BYPASS_DOWNLOAD_AND_UPLOAD then none else some helper

/-! ### Download models (`_download_with_requests`, lines 294-320, and the
live `_download_pdf`, lines 897-915) -/

/-- Outcome of one `requests.get` + `raise_for_status` + write-to-file
attempt.  `reqError` is any `requests.exceptions.RequestException` — the
`transient` flag classifies it (connection error, timeout, 5xx) versus
non-transient (4xx `HTTPError` from `raise_for_status`, malformed URL) but
the code never inspects that distinction.  `response` is a 2xx response whose
body of `size` bytes was written to the local file. -/
inductive AttemptResult where
  | reqError (transient : Bool)
  | response (size : Nat)
deriving DecidableEq, Repr

/-- The retry loop of the first variant's `_download_with_requests`
(lines 294-320) with `max_retries = 2`: on a response, return the path when
the file is non-empty and `None` otherwise (no retry); on a
`RequestException`, retry while `attempt < max_retries - 1` (after a
`time.sleep(2 ** attempt)` backoff, not modelled), else return `None`.
Returns the result and the number of attempts made. -/
def dwrGo (attempts : Nat → AttemptResult) (localPath : String)
    (maxRetries : Nat) : Nat → Nat → Option String × Nat
  | _, 0 => (none, 0)
  | attempt, fuel + 1 =>
      match attempts attempt with
      | .response size =>
          if 0 < size then (some localPath, attempt + 1)
          else (none, attempt + 1)
      | .reqError _ =>
          if attempt < maxRetries - 1 then
            dwrGo attempts localPath maxRetries (attempt + 1) fuel
          else (none, attempt + 1)

/-- `_download_with_requests` (first variant, lines 294-320). -/
def download_with_requests (attempts : Nat → AttemptResult)
    (localPath : String) : Option String × Nat :=
  dwrGo attempts localPath 2 0 2

/-- The live `_download_pdf` (lines 897-915): a single `requests.get`, no
retry loop, and no size check on the written file — any exception yields
`None`, any 2xx response yields the path even for a zero-byte body. -/
def downloadPdfLive (attempts : Nat → AttemptResult) (localPath : String) :
    Option String :=
  match attempts 0 with
  | .response _ => some localPath
  | .reqError _ => none

/-! ### PostgreSQL model (`postgres_process.py` lines 48-96) -/

/-- One row of the `hotel_uploads` table.  All nullable columns are
`Option String` (`none` = SQL NULL); `2b_id` is rendered `b2_id`;
`updated_on` is a timestamp. -/
structure PgRecord where
  id : Nat
  source_id : Option String := none
  source : Option String := none
  client_name : Option String := none
  file_url : Option String := none
  file_hash : Option String := none
  status : Option String := none
  match_status : Option String := none
  b2_id : Option String := none
  booking_id : Option String := none
  client_gstin : Option String := none
  hotel_gstin : Option String := none
  invoice_number : Option String := none
  invoice_date : Option String := none
  gst_amount : Option String := none
  remarks : Option String := none
  followup_tracking_id : Option String := none
  updated_on : Option Nat := none
deriving DecidableEq, Repr

/-- The `invoice_data` dict passed to `insert_full_invoice_data`: the dynamic
insert (lines 72-81) includes a column only when the key is present and its
value is not `None`, which `none` models. -/
structure PgData where
  source_id : Option String := none
  source : Option String := none
  client_name : Option String := none
  file_url : Option String := none
  file_hash : Option String := none
  status : Option String := none
  match_status : Option String := none
  b2_id : Option String := none
  booking_id : Option String := none
  client_gstin : Option String := none
  hotel_gstin : Option String := none
  invoice_number : Option String := none
  invoice_date : Option String := none
  gst_amount : Option String := none
  remarks : Option String := none
  followup_tracking_id : Option String := none
  updated_on : Option Nat := none
deriving DecidableEq, Repr

/-- The record built by the dynamic `INSERT ... RETURNING id` (lines 72-93):
omitted columns stay NULL, the id is DB-generated. -/
def mkPgRecord (nextId : Nat) (d : PgData) : PgRecord :=
  { id := nextId, source_id := d.source_id, source := d.source,
    client_name := d.client_name, file_url := d.file_url,
    file_hash := d.file_hash, status := d.status,
    match_status := d.match_status, b2_id := d.b2_id,
    booking_id := d.booking_id, client_gstin := d.client_gstin,
    hotel_gstin := d.hotel_gstin, invoice_number := d.invoice_number,
    invoice_date := d.invoice_date, gst_amount := d.gst_amount,
    remarks := d.remarks, followup_tracking_id := d.followup_tracking_id,
    updated_on := d.updated_on }

/-- `PostgresProcess.insert_full_invoice_data` (lines 48-96) on the
`hotel_uploads` table, DB failure paths aside: `SELECT id FROM hotel_uploads
WHERE file_hash = %s` (a NULL hash matches nothing in SQL); when a row is
found, `UPDATE hotel_uploads SET updated_on = CURRENT_TIMESTAMP WHERE id =
%s` and return `{"id": str(id), "is_duplicate": True}`; otherwise the
dynamic insert returning `{"id": str(new_id), "is_duplicate": False}`.
`now` models `CURRENT_TIMESTAMP`, `nextId` the generated key. -/
def insert_full_invoice_data (table : List PgRecord) (data : PgData)
    (now : Nat) (nextId : Nat) : Option PgResult × List PgRecord :=
  let doInsert : Option PgResult × List PgRecord :=
    (some { id := toString nextId, is_duplicate := false },
     table ++ [mkPgRecord nextId data])
  match data.file_hash with
  | none => doInsert
  | some h =>
      match table.find? (fun rec => rec.file_hash == some h) with
      | some rec =>
          (some { id := toString rec.id, is_duplicate := true },
           table.map (fun x =>
             if x.id == rec.id then { x with updated_on := some now } else x))
      | none => doInsert

/-- A record with its `updated_on` replaced; used to state frame conditions
("every other field unchanged"). -/
def PgRecord.withUpd (x : PgRecord) (u : Option Nat) : PgRecord :=
  { x with updated_on := u }

/-! ### Concrete instances used by witnesses and counterexamples -/

/-- A cloud helper whose upload always succeeds. -/
def ch0 : CloudHelper :=
  { upload_blob := fun _ _ => true,
    upload_output_file := fun _ => none,
    get_file_url := fun k => "https://signed.example/" ++ k }

/-- Oracle: every external call succeeds, no duplicate. -/
def envAllOk : RowEnv :=
  { download := some "downloads/a.pdf", md5 := "abc123", mongoDup := false,
    mongoInsertId := some "m1",
    pgResult := some { id := "7", is_duplicate := false } }

/-- Oracle: the fingerprint is already in the document store. -/
def envDup : RowEnv := { envAllOk with mongoDup := true }

/-- Oracle: the MongoDB insert fails. -/
def envMongoFail : RowEnv := { envAllOk with mongoInsertId := none }

/-- Oracle: the PostgreSQL write fails after everything before it worked. -/
def envPgFail : RowEnv := { envAllOk with pgResult := none }

/-- Oracle: the download fails. -/
def envDlFail : RowEnv := { envAllOk with download := none }

/-- A one-link input row. -/
def rowA : Row := ⟨[("file_link", some "code1")]⟩

/-- A three-link input row with a passthrough column. -/
def rowMulti : Row :=
  ⟨[("file_link", some " a.pdf, b.pdf; c.pdf "), ("amount", some "5")]⟩

/-- A one-row table with neither `external_file_link` nor `file_link`. -/
def dfNoCol : DataFrame := ⟨["amount"], [⟨[("amount", some "5")]⟩]⟩

/-- A one-row table with a `file_link` column holding a real reference but no
`external_file_link` column. -/
def dfWithFileLink : DataFrame :=
  ⟨["file_link"], [⟨[("file_link", some "invoices/orig.pdf")]⟩]⟩

/-- Batch oracle where every row's download fails. -/
def envFnDlFail : Nat → RowEnv := fun _ => envDlFail

/-- Batch oracle where every row fully succeeds. -/
def envFnAllOk : Nat → RowEnv := fun _ => envAllOk

/-- Attempt oracle: first a non-transient 404 `HTTPError`, then a good
5-byte response. -/
def attempts404ThenOk : Nat → AttemptResult := fun n =>
  if n = 0 then .reqError false else .response 5

/-- Attempt oracle: first a transient connection error, then a good 5-byte
response. -/
def attemptsTransientThenOk : Nat → AttemptResult := fun n =>
  if n = 0 then .reqError true else .response 5

/-- Attempt oracle: a 2xx response whose body is empty. -/
def attemptsEmptyBody : Nat → AttemptResult := fun _ => .response 0

/-- A relational row already holding hash "abc123". -/
def pgRec7 : PgRecord :=
  { id := 7, source := some "tmc-portal", file_hash := some "abc123",
    status := some "PENDING", updated_on := some 10 }

/-- An unrelated relational row. -/
def pgRec8 : PgRecord :=
  { id := 8, file_hash := some "zzz", updated_on := some 11 }

/-- A two-row relational table. -/
def pgTable0 : List PgRecord := [pgRec7, pgRec8]

/-- Invoice data whose hash collides with `pgRec7`. -/
def pgData0 : PgData :=
  { source := some "tmc-portal", client_name := some "acme",
    file_url := some "https://signed.example/x.pdf",
    file_hash := some "abc123", status := some "PENDING",
    remarks := some "Processed from acme", updated_on := some 99 }

/-! ### Structural lemmas -/

theorem setCells_find_self (l : List (String × Cell)) (c : String) (v : Cell) :
    ((setCells l c v).find? (fun p => p.1 == c)).map Prod.snd = some v := by
  induction l with
  | nil => simp [setCells]
  | cons hd tl ih =>
      obtain ⟨k, w⟩ := hd
      by_cases hk : k = c
      · subst hk
        simp [setCells]
      · have hne : ¬ ((k == c) = true) := by simp [hk]
        have hkc : (k == c) = false := by simp [hk]
        simp only [setCells, if_neg hne]
        simpa [List.find?_cons, hkc] using ih

theorem setCells_find_ne (l : List (String × Cell)) (c c' : String) (v : Cell)
    (h : c' ≠ c) :
    (setCells l c v).find? (fun p => p.1 == c')
      = l.find? (fun p => p.1 == c') := by
  have hcc' : (c == c') = false := by simp [Ne.symm h]
  induction l with
  | nil => simp [setCells, List.find?_cons, hcc']
  | cons hd tl ih =>
      obtain ⟨k, w⟩ := hd
      by_cases hk : k = c
      · subst hk
        have htrue : ((k == k) = true) := by simp
        simp only [setCells, if_pos htrue]
        simp [List.find?_cons, hcc']
      · have hne : ¬ ((k == c) = true) := by simp [hk]
        simp only [setCells, if_neg hne]
        by_cases hk' : k = c'
        · subst hk'
          simp [List.find?_cons]
        · have hkc' : (k == c') = false := by simp [hk']
          simp [List.find?_cons, hkc', ih]

theorem Row.find_set_self (r : Row) (c : String) (v : Cell) :
    (r.set c v).find c = some v := by
  simpa [Row.set, Row.find] using setCells_find_self r.cells c v

theorem Row.find_set_ne (r : Row) (c c' : String) (v : Cell) (h : c' ≠ c) :
    (r.set c v).find c' = r.find c' := by
  simp [Row.set, Row.find, setCells_find_ne r.cells c c' v h]

theorem Row.get_set (r : Row) (c c' : String) (v : Cell) :
    (r.set c v).get c' = if c' = c then v else r.get c' := by
  by_cases h : c' = c
  · subst h
    simp [Row.get, Row.find_set_self]
  · simp [Row.get, Row.find_set_ne r c c' v h, h]

theorem applyWrites_get (ws : List (String × String)) (r : Row) (f : String) :
    (applyWrites r ws).get f
      = ws.foldl (fun a w => if w.1 == f then some w.2 else a) (r.get f) := by
  induction ws generalizing r with
  | nil => simp [applyWrites]
  | cons w ws ih =>
      obtain ⟨c, v⟩ := w
      have hstep : applyWrites r ((c, v) :: ws)
          = applyWrites (r.set c (some v)) ws := rfl
      rw [hstep, ih, List.foldl_cons]
      congr 1
      by_cases h : c = f
      · subst h
        simp [Row.get_set]
      · have hb : (c == f) = false := by simp [h]
        rw [Row.get_set]
        simp [hb, Ne.symm h]

theorem foldl_lastWrite (ws : List (String × String)) (f : String)
    (a : Option String) :
    ws.foldl (fun acc w => if w.1 == f then some w.2 else acc) a
      = match lastWrite ws f with
        | some v => some v
        | none => a := by
  induction ws generalizing a with
  | nil => simp [lastWrite]
  | cons w ws ih =>
      obtain ⟨c, v⟩ := w
      have h1 : ((c, v) :: ws).foldl
            (fun acc w => if w.1 == f then some w.2 else acc) a
          = ws.foldl (fun acc w => if w.1 == f then some w.2 else acc)
              (if (c == f) = true then some v else a) := rfl
      have h2 : lastWrite ((c, v) :: ws) f
          = ws.foldl (fun acc w => if w.1 == f then some w.2 else acc)
              (if (c == f) = true then some v else none) := rfl
      rw [h1, h2, ih, ih]
      cases hws : lastWrite ws f with
      | some u => rfl
      | none => by_cases h : (c == f) = true <;> simp [h]

theorem applyWrites_get_of_lastWrite (ws : List (String × String)) (r : Row)
    (f : String) (v : String) (h : lastWrite ws f = some v) :
    (applyWrites r ws).get f = some v := by
  rw [applyWrites_get, foldl_lastWrite, h]

theorem lastWrite_append (ws ws' : List (String × String)) (f : String) :
    lastWrite (ws ++ ws') f
      = match lastWrite ws' f with
        | some v => some v
        | none => lastWrite ws f := by
  have h1 : lastWrite (ws ++ ws') f
      = ws'.foldl (fun a w => if w.1 == f then some w.2 else a)
          (lastWrite ws f) := by
    unfold lastWrite
    rw [List.foldl_append]
  rw [h1, foldl_lastWrite]

theorem tallyGo_spec (l : List RowResult) (p s f : Nat) :
    (l.foldl tallyStep (p, s, f)).1 = p + ((l.foldl tallyStep (p, s, f)).2.1 - s)
    ∧ s ≤ (l.foldl tallyStep (p, s, f)).2.1
    ∧ (l.foldl tallyStep (p, s, f)).2.1 + (l.foldl tallyStep (p, s, f)).2.2
        = s + f + l.length := by
  induction l generalizing p s f with
  | nil => simp
  | cons res l ih =>
      cases hres : res.outcome with
      | success =>
          have hstep : tallyStep (p, s, f) res = (p + 1, s + 1, f) := by
            simp [tallyStep, hres]
          simp only [List.foldl_cons, hstep, List.length_cons]
          obtain ⟨ih1, ih2, ih3⟩ := ih (p + 1) (s + 1) f
          omega
      | failed =>
          have hstep : tallyStep (p, s, f) res = (p, s, f + 1) := by
            simp [tallyStep, hres]
          simp only [List.foldl_cons, hstep, List.length_cons]
          obtain ⟨ih1, ih2, ih3⟩ := ih p s (f + 1)
          omega

theorem tally_processed_eq (l : List RowResult) :
    (tally l).1 = (tally l).2.1 := by
  obtain ⟨h1, h2, _⟩ := tallyGo_spec l 0 0 0
  simp only [tally]
  omega

theorem tally_sum (l : List RowResult) :
    (tally l).2.1 + (tally l).2.2 = l.length := by
  obtain ⟨_, _, h3⟩ := tallyGo_spec l 0 0 0
  simpa [tally] using h3

theorem tallyGo_success_zero (l : List RowResult)
    (h : ∀ res ∈ l, res.outcome = .failed) (p s f : Nat) :
    (l.foldl tallyStep (p, s, f)).2.1 = s := by
  induction l generalizing p s f with
  | nil => simp
  | cons res l ih =>
      have hres : res.outcome = .failed := h res (by simp)
      have hstep : tallyStep (p, s, f) res = (p, s, f + 1) := by
        simp [tallyStep, hres]
      simp only [List.foldl_cons, hstep]
      exact ih (fun x hx => h x (by simp [hx])) p s (f + 1)

theorem runRows_length (ch : Option CloudHelper) (env : Nat → RowEnv)
    (rows : List Row) (i0 : Nat) :
    (runRows ch env rows i0).length = rows.length := by
  induction rows generalizing i0 with
  | nil => rfl
  | cons r rows ih => simp [runRows, ih]

theorem runRows_mem (ch : Option CloudHelper) (env : Nat → RowEnv)
    (rows : List Row) (i0 : Nat) (pr : Row × RowResult)
    (h : pr ∈ runRows ch env rows i0) :
    ∃ j, pr.2 = processRowLive ch (env j) pr.1 j := by
  induction rows generalizing i0 with
  | nil => simp [runRows] at h
  | cons r rows ih =>
      simp only [runRows, List.mem_cons] at h
      rcases h with h | h
      · exact ⟨i0, by rw [h]⟩
      · exact ih (i0 + 1) h

theorem setColCells_length (rows : List Row) (c : String) (vals : Nat → Cell)
    (i0 : Nat) : (setColCells rows c vals i0).length = rows.length := by
  induction rows generalizing i0 with
  | nil => rfl
  | cons r rows ih => simp [setColCells, ih]

theorem setColCells_getElem? (rows : List Row) (c : String) (vals : Nat → Cell)
    (i0 i : Nat) :
    (setColCells rows c vals i0)[i]?
      = (rows[i]?).map (fun r => r.set c (vals (i0 + i))) := by
  induction rows generalizing i0 i with
  | nil => simp [setColCells]
  | cons r rows ih =>
      cases i with
      | zero => simp [setColCells]
      | succ n =>
          simp only [setColCells, List.getElem?_cons_succ, ih (i0 + 1) n]
          have : i0 + 1 + n = i0 + (n + 1) := by omega
          rw [this]

theorem processRowLive_no_delete (ch : Option CloudHelper) (env : RowEnv)
    (r : Row) (idx : Nat) :
    (processRowLive ch env r idx).effects.all (fun e => !e.isDelete) = true := by
  unfold processRowLive persistStages
  dsimp only
  repeat' split
  all_goals rfl

theorem processRowLive_status_isSome (ch : Option CloudHelper) (env : RowEnv)
    (r : Row) (idx : Nat) :
    ((processRowLive ch env r idx).finalStatus).isSome = true := by
  unfold processRowLive persistStages
  dsimp only
  repeat' split
  all_goals rfl

theorem processRowLive_none_failed (env : RowEnv) (r : Row) (idx : Nat) :
    (processRowLive none env r idx).outcome = .failed := by
  unfold processRowLive persistStages
  dsimp only
  repeat' split
  all_goals first
    | rfl
    | simp_all [TEST_BYPASS_DOWNLOAD_AND_UPLOAD]

theorem processRowLive_idx_irrelevant (ch : Option CloudHelper)
    (env : RowEnv) (r : Row) (idx idx2 : Nat) :
    processRowLive ch env r idx = processRowLive ch env r idx2 := by
  unfold processRowLive persistStages
  dsimp only
  repeat' split
  all_goals first
    | rfl
    | simp_all [TEST_BYPASS_DOWNLOAD_AND_UPLOAD]

theorem processRowLive_no_success_write (env : RowEnv) (r : Row) (idx : Nat)
    (v : String)
    (h : (processRowLive none env r idx).finalStatus = some v) :
    strStarts "FAILED:" v = true := by
  revert h
  unfold processRowLive persistStages
  dsimp only
  repeat' split
  all_goals intro h
  all_goals first
    | exact absurd (by assumption : TEST_BYPASS_DOWNLOAD_AND_UPLOAD = true)
        (by decide)
    | (obtain rfl := Option.some.inj h; decide)

theorem processFileLive_none_success_zero (env : Nat → RowEnv)
    (df : DataFrame) :
    (processFileLive fileProcessorNew env df).success = 0 := by
  have hall : ∀ res ∈ (runRows fileProcessorNew env (livePrepared df).rows 0).map
      Prod.snd, res.outcome = Outcome.failed := by
    intro res hres
    obtain ⟨pr, hpr, hpr2⟩ := List.mem_map.mp hres
    obtain ⟨j, hj⟩ := runRows_mem _ _ _ _ pr hpr
    rw [← hpr2, hj]
    exact processRowLive_none_failed _ _ _
  unfold processFileLive
  dsimp only
  exact tallyGo_success_zero _ hall 0 0 0

theorem processFileLive_status_assigned (ch : Option CloudHelper)
    (env : Nat → RowEnv) (df : DataFrame) (r' : Row)
    (h : r' ∈ (processFileLive ch env df).finalRows) :
    (r'.get "status").isSome = true := by
  unfold processFileLive at h
  dsimp only at h
  obtain ⟨pr, hpr, hpr2⟩ := List.mem_map.mp h
  obtain ⟨j, hj⟩ := runRows_mem _ _ _ _ pr hpr
  have hs := processRowLive_status_isSome ch (env j) pr.1 j
  rw [← hj] at hs
  obtain ⟨v, hv⟩ := Option.isSome_iff_exists.mp hs
  rw [← hpr2]
  rw [applyWrites_get_of_lastWrite pr.2.writes pr.1 "status" v hv]
  rfl

theorem processFileLive_counters (ch : Option CloudHelper)
    (env : Nat → RowEnv) (df : DataFrame) :
    (processFileLive ch env df).processed = (processFileLive ch env df).success
    ∧ (processFileLive ch env df).success + (processFileLive ch env df).failed
        = (processFileLive ch env df).finalRows.length := by
  unfold processFileLive
  dsimp only
  constructor
  · exact tally_processed_eq _
  · rw [tally_sum]
    simp

theorem expandRow_of_multi (r : Row) (s : String)
    (hcell : r.find "file_link" = some (some s))
    (h2 : 2 ≤ (splitLinks s).length) :
    expandRow r = (splitLinks s).map (fun l => r.set "file_link" (some l)) := by
  unfold expandRow
  rw [hcell]
  dsimp only
  rw [if_neg (by omega)]

theorem expandRow_of_le_one (r : Row) (s : String)
    (hcell : r.find "file_link" = some (some s))
    (h1 : (splitLinks s).length ≤ 1) :
    expandRow r = [r] := by
  unfold expandRow
  rw [hcell]
  dsimp only
  rw [if_pos h1]

/-! ### Claim theorems -/

/-- C1 counterexample: in the (shadowed) first-variant pipeline — the one
containing the MongoDB dedup gate the claim cites — a row whose fingerprint
is already in the document store is indeed marked DUPLICATE, but the
object-store upload HAS been performed before the gate runs, contradicting
"performs no object-store upload". -/
theorem claim1_counterexample :
    (processRowV1 ch0 "acme" envDup rowA 0).finalStatus
        = some "DUPLICATE: File already processed"
    ∧ Effect.uploadBlob "downloads/a.pdf" (v1S3Key "acme" 0)
        ∈ (processRowV1 ch0 "acme" envDup rowA 0).effects := by
  decide

/-- C1 (amended): in the first (shadowed) `FileProcessor.process_file`, a row
whose fingerprint is already in the document store is marked
"DUPLICATE: File already processed" and neither the document-store insert nor
the relational write occurs and it is tallied as failed — but the
object-store upload has already been performed before the duplicate check. -/
theorem claim1_theorem (ch : CloudHelper) (client : String) (env : RowEnv)
    (r : Row) (idx : Nat) (s : String) (p : String)
    (hcell : r.find "file_link" = some (some s))
    (hdl : env.download = some p)
    (hup : ch.upload_blob p (v1S3Key client idx) = true)
    (hdup : env.mongoDup = true) :
    (processRowV1 ch client env r idx).finalStatus
        = some "DUPLICATE: File already processed"
    ∧ (∀ h, Effect.mongoInsert h ∉ (processRowV1 ch client env r idx).effects)
    ∧ (∀ h, Effect.pgInsert h ∉ (processRowV1 ch client env r idx).effects)
    ∧ Effect.uploadBlob p (v1S3Key client idx)
        ∈ (processRowV1 ch client env r idx).effects
    ∧ (processRowV1 ch client env r idx).outcome = .failed := by
  have hres : processRowV1 ch client env r idx
      = { writes := [("file_hash", env.md5),
                     ("s3_link", ch.get_file_url (v1S3Key client idx)),
                     ("status", "SUCCESS")]
            ++ [("status", "DUPLICATE: File already processed")],
          effects := [Effect.downloadReq ("https://wormhole.app/" ++ pyStrip s),
                      Effect.uploadBlob p (v1S3Key client idx),
                      Effect.mongoDupCheck env.md5],
          outcome := .failed } := by
    unfold processRowV1
    rw [hcell]
    dsimp only
    rw [hdl]
    dsimp only
    rw [if_pos hup, if_pos hdup]
  rw [hres]
  refine ⟨?_, ?_, ?_, by simp, rfl⟩
  · rw [RowResult.finalStatus]
    dsimp only
    rw [lastWrite_append]
    rfl
  · intro h
    simp
  · intro h
    simp

/-- C1 witness: the amended statement applied at a concrete duplicate row. -/
theorem claim1_witness :
    envDup.mongoDup = true
    ∧ (processRowV1 ch0 "acme" envDup rowA 0).finalStatus
        = some "DUPLICATE: File already processed"
    ∧ (∀ h, Effect.mongoInsert h ∉ (processRowV1 ch0 "acme" envDup rowA 0).effects)
    ∧ (processRowV1 ch0 "acme" envDup rowA 0).outcome = .failed := by
  have h := claim1_theorem ch0 "acme" envDup rowA 0 "code1" "downloads/a.pdf"
      (by decide) rfl rfl rfl
  exact ⟨rfl, h.1, h.2.1, h.2.2.2.2⟩

/-- C2 counterexample: in the live pipeline, with upload and document insert
succeeded and the relational write failed, the status does begin with
FAILED:, but NO deletion of the uploaded object or the inserted document is
even attempted — the effect trace contains the upload and the insert and not
a single delete. -/
theorem claim2_counterexample :
    (processRowLive (some ch0) envPgFail rowA 0).finalStatus
        = some "FAILED: PostgreSQL insert failed"
    ∧ (processRowLive (some ch0) envPgFail rowA 0).effects.contains
        (Effect.uploadBlob "downloads/a.pdf" (liveS3Key "downloads/a.pdf"))
        = true
    ∧ (processRowLive (some ch0) envPgFail rowA 0).effects.contains
        (Effect.mongoInsert "abc123") = true
    ∧ (processRowLive (some ch0) envPgFail rowA 0).effects.all
        (fun e => !e.isDelete) = true := by
  decide

/-- C2 (amended): when the relational write fails after a successful upload
and document insert, the row's status is "FAILED: PostgreSQL insert failed"
(which begins with FAILED:) and the row is tallied as failed, but no
compensating deletion is attempted: the live row pipeline never emits any
delete effect (the cloud-helper interface and the MongoDB wrapper expose no
delete operation at all). -/
theorem claim2_theorem (helper : CloudHelper) (env : RowEnv) (r : Row)
    (idx : Nat) (cell : Cell) (p : String) (mid : String)
    (hcell : r.find "file_link" = some cell)
    (hne : pyStrip (cellStr cell) ≠ "")
    (hdl : env.download = some p)
    (hup : helper.upload_blob p (liveS3Key p) = true)
    (hmid : env.mongoInsertId = some mid)
    (hpg : env.pgResult = none) :
    (processRowLive (some helper) env r idx).finalStatus
        = some "FAILED: PostgreSQL insert failed"
    ∧ strStarts "FAILED:" "FAILED: PostgreSQL insert failed" = true
    ∧ (processRowLive (some helper) env r idx).outcome = .failed
    ∧ ∀ (ch : Option CloudHelper) (env2 : RowEnv) (r2 : Row) (idx2 : Nat),
        (processRowLive ch env2 r2 idx2).effects.all (fun e => !e.isDelete)
          = true := by
  have hres : processRowLive (some helper) env r idx
      = { writes := [("file_hash", env.md5),
                     ("s3_link", helper.get_file_url (liveS3Key p)),
                     ("status", "SUCCESS")]
            ++ [("status", "FAILED: PostgreSQL insert failed")],
          effects := [Effect.downloadReq (pyStrip (cellStr cell)),
                      Effect.uploadBlob p (liveS3Key p)]
            ++ [Effect.mongoInsert env.md5, Effect.pgInsert env.md5],
          outcome := .failed } := by
    unfold processRowLive persistStages
    rw [hcell]
    dsimp only
    rw [if_neg hne,
        if_neg (by decide : ¬ TEST_BYPASS_DOWNLOAD_AND_UPLOAD = true), hdl]
    dsimp only
    rw [if_pos hup, hmid]
    dsimp only
    rw [hpg]
  refine ⟨?_, by decide, by rw [hres], fun ch env2 r2 idx2 =>
    processRowLive_no_delete ch env2 r2 idx2⟩
  rw [hres]
  rw [RowResult.finalStatus]
  dsimp only
  rw [lastWrite_append]
  rfl

/-- C2 witness: the amended statement applied at a concrete pg-failure row. -/
theorem claim2_witness :
    envPgFail.pgResult = none
    ∧ (processRowLive (some ch0) envPgFail rowA 0).finalStatus
        = some "FAILED: PostgreSQL insert failed"
    ∧ (processRowLive (some ch0) envPgFail rowA 0).outcome = .failed := by
  have h := claim2_theorem ch0 envPgFail rowA 0 (some "code1") "downloads/a.pdf"
      "m1" (by decide) (by decide) rfl rfl rfl rfl
  exact ⟨rfl, h.1, h.2.2.1⟩

/-- C3: `insert_full_invoice_data` with an already-present `file_hash`
inserts no new row, updates only `updated_on` of the matched row (every other
field of every row unchanged), and returns the existing row's id with
`is_duplicate = true`. -/
theorem claim3_theorem (table : List PgRecord) (data : PgData)
    (now nextId : Nat) (h : String) (rec : PgRecord)
    (hh : data.file_hash = some h)
    (hfind : table.find? (fun x => x.file_hash == some h) = some rec) :
    (insert_full_invoice_data table data now nextId).1
        = some { id := toString rec.id, is_duplicate := true }
    ∧ (insert_full_invoice_data table data now nextId).2.length = table.length
    ∧ List.Forall₂
        (fun old new =>
          new.withUpd old.updated_on = old
          ∧ new.updated_on
              = (if old.id = rec.id then some now else old.updated_on))
        table (insert_full_invoice_data table data now nextId).2 := by
  unfold insert_full_invoice_data
  rw [hh]
  dsimp only
  rw [hfind]
  refine ⟨rfl, by simp, ?_⟩
  rw [List.forall₂_map_right_iff]
  rw [List.forall₂_same]
  intro x _
  by_cases hid : x.id = rec.id
  · have hb : (x.id == rec.id) = true := by simp [hid]
    rw [hb]
    exact ⟨rfl, by simp [hid]⟩
  · have hb : (x.id == rec.id) = false := by simp [hid]
    rw [hb]
    exact ⟨rfl, by simp [hid]⟩

/-- C3 witness: the upsert applied to a concrete two-row table with a hash
collision. -/
theorem claim3_witness :
    pgData0.file_hash = some "abc123"
    ∧ pgTable0.find? (fun x => x.file_hash == some "abc123") = some pgRec7
    ∧ (insert_full_invoice_data pgTable0 pgData0 99 9).1
        = some { id := toString pgRec7.id, is_duplicate := true }
    ∧ (insert_full_invoice_data pgTable0 pgData0 99 9).2.length
        = pgTable0.length := by
  have h := claim3_theorem pgTable0 pgData0 99 9 "abc123" pgRec7 rfl (by decide)
  exact ⟨rfl, by decide, h.1, h.2.1⟩

/-- C4: the live `FileProcessor` (second, shadowing definition) has `init`
instead of `__init__`, so a freshly constructed processor has no
`cloud_helper` attribute (`fileProcessorNew = none`); with
`TEST_BYPASS_DOWNLOAD_AND_UPLOAD = false`, every row whose download succeeds
hits the `AttributeError` at the upload step, which the per-row handler turns
into a status beginning "FAILED:"; no row of any batch ends with SUCCESS (the
success counter is 0 and every per-row outcome is failed). -/
theorem claim4_theorem (env : RowEnv) (r : Row) (idx : Nat)
    (cell : Cell) (p : String)
    (hcell : r.find "file_link" = some cell)
    (hne : pyStrip (cellStr cell) ≠ "")
    (hdl : env.download = some p) :
    (processRowLive fileProcessorNew env r idx).finalStatus
        = some ("FAILED: " ++ attrErrorMsg)
    ∧ strStarts "FAILED:" ("FAILED: " ++ attrErrorMsg) = true
    ∧ (∀ (v : String),
        (processRowLive fileProcessorNew env r idx).finalStatus = some v →
          strStarts "FAILED:" v = true)
    ∧ (∀ (env2 : RowEnv) (r2 : Row) (idx2 : Nat),
        (processRowLive fileProcessorNew env2 r2 idx2).outcome = .failed)
    ∧ (∀ (envs : Nat → RowEnv) (df : DataFrame),
        (processFileLive fileProcessorNew envs df).success = 0) := by
  refine ⟨?_, by decide, ?_, ?_, ?_⟩
  · unfold processRowLive
    rw [hcell]
    dsimp only
    rw [if_neg hne,
        if_neg (by decide : ¬ TEST_BYPASS_DOWNLOAD_AND_UPLOAD = true), hdl]
    rfl
  · intro v hv
    exact processRowLive_no_success_write env r idx v hv
  · intro env2 r2 idx2
    exact processRowLive_none_failed env2 r2 idx2
  · intro envs df
    exact processFileLive_none_success_zero envs df

/-- C4 witness: the statement applied at a concrete row whose download
succeeds. -/
theorem claim4_witness :
    rowA.find "file_link" = some (some "code1")
    ∧ pyStrip (cellStr (some "code1")) ≠ ""
    ∧ envAllOk.download = some "downloads/a.pdf"
    ∧ (processRowLive fileProcessorNew envAllOk rowA 0).finalStatus
        = some ("FAILED: " ++ attrErrorMsg) := by
  have h := claim4_theorem envAllOk rowA 0 (some "code1") "downloads/a.pdf"
      (by decide) (by decide) rfl
  exact ⟨by decide, by decide, rfl, h.1⟩

/-- C5: link expansion is lossless: a cell splitting into `n ≥ 2` tokens
yields exactly `n` rows whose `file_link` values are exactly the token list
and whose every other column equals the parent's; a cell splitting into zero
or one token passes the row through unchanged. -/
theorem claim5_theorem (r : Row) (s : String)
    (hcell : r.find "file_link" = some (some s)) :
    (2 ≤ (splitLinks s).length →
      (expandRow r).length = (splitLinks s).length
      ∧ (expandRow r).map (fun x => x.get "file_link")
          = (splitLinks s).map some
      ∧ ∀ x ∈ expandRow r, ∀ c, c ≠ "file_link" → x.find c = r.find c)
    ∧ ((splitLinks s).length ≤ 1 → expandRow r = [r]) := by
  constructor
  · intro h2
    rw [expandRow_of_multi r s hcell h2]
    refine ⟨by simp, ?_, ?_⟩
    · rw [List.map_map]
      apply List.map_congr_left
      intro l _
      simp [Function.comp, Row.get, Row.find_set_self]
    · intro x hx c hc
      obtain ⟨l, _, rfl⟩ := List.mem_map.mp hx
      exact Row.find_set_ne r "file_link" c (some l) hc
  · intro h1
    exact expandRow_of_le_one r s hcell h1

/-- C5 witness: a concrete three-link cell expands to three rows carrying the
tokens, and a one-link cell passes through. -/
theorem claim5_witness :
    rowMulti.find "file_link" = some (some " a.pdf, b.pdf; c.pdf ")
    ∧ 2 ≤ (splitLinks " a.pdf, b.pdf; c.pdf ").length
    ∧ (expandRow rowMulti).length
        = (splitLinks " a.pdf, b.pdf; c.pdf ").length
    ∧ (expandRow rowMulti).map (fun x => x.get "file_link")
        = (splitLinks " a.pdf, b.pdf; c.pdf ").map some
    ∧ (splitLinks "code1").length ≤ 1
    ∧ expandRow rowA = [rowA] := by
  have h := claim5_theorem rowMulti " a.pdf, b.pdf; c.pdf " (by decide)
  have h2 : 2 ≤ (splitLinks " a.pdf, b.pdf; c.pdf ").length := by decide
  have hA := claim5_theorem rowA "code1" (by decide)
  exact ⟨by decide, h2, (h.1 h2).1, (h.1 h2).2.1, by decide,
    hA.2 (by decide)⟩

/-- C6 counterexample: a table with no `external_file_link` (and no
`file_link`) column does NOT fail hard: the live batch returns True and the
row is processed (it receives a status). -/
theorem claim6_counterexample :
    (processFileLive fileProcessorNew envFnDlFail dfNoCol).ok = true
    ∧ (processFileLive fileProcessorNew envFnDlFail dfNoCol).finalRows.map
        (fun r => r.get "status") = [some "FAILED: PDF download failed"] := by
  decide

/-- C6 (amended): the live `process_file` never hard-fails on a missing
attachment column: when `external_file_link` is absent it synthesizes
`file_link` and processes every row (the batch returns True and every output
row carries a status); only the shadowed first definition returns False when
its `file_link` column is absent. -/
theorem claim6_theorem (ch : Option CloudHelper) (env : Nat → RowEnv)
    (df : DataFrame) (_h1 : "external_file_link" ∉ df.cols) :
    (processFileLive ch env df).ok = true
    ∧ (∀ r' ∈ (processFileLive ch env df).finalRows,
        (r'.get "status").isSome = true)
    ∧ (∀ df2 : DataFrame, "file_link" ∉ df2.cols →
        processFileV1Expand df2 = none) := by
  refine ⟨rfl, fun r' hr' => processFileLive_status_assigned ch env df r' hr',
    ?_⟩
  intro df2 h2
  unfold processFileV1Expand
  rw [if_neg h2]

/-- C6 witness: the amended statement applied at a concrete column-less
table. -/
theorem claim6_witness :
    "external_file_link" ∉ dfNoCol.cols
    ∧ (processFileLive fileProcessorNew envFnDlFail dfNoCol).ok = true
    ∧ processFileV1Expand dfNoCol = none := by
  have h := claim6_theorem fileProcessorNew envFnDlFail dfNoCol (by decide)
  exact ⟨by decide, h.1, h.2.2 dfNoCol (by decide)⟩

theorem dwr_first_response (att : Nat → AttemptResult) (p : String)
    (size : Nat) (h : att 0 = .response size) :
    download_with_requests att p
      = if 0 < size then (some p, 1) else (none, 1) := by
  unfold download_with_requests dwrGo
  rw [h]

theorem dwr_first_error (att : Nat → AttemptResult) (p : String) (t : Bool)
    (h : att 0 = .reqError t) :
    download_with_requests att p
      = match att 1 with
        | .response size => if 0 < size then (some p, 2) else (none, 2)
        | .reqError _ => (none, 2) := by
  unfold download_with_requests dwrGo
  rw [h]
  dsimp only
  rw [if_pos (by decide : (0 : Nat) < 2 - 1)]
  unfold dwrGo
  cases h1 : att 1 with
  | reqError t2 =>
      rw [if_neg (by decide : ¬ (1 : Nat) < 2 - 1)]
  | response size => rfl

/-- C7 counterexample: the shadowed `_download_with_requests` retries after a
non-transient 404 `HTTPError` (the claim says 4xx fails immediately without
retry) and even returns success on the second attempt; and the live
`_download_pdf` does not retry at all — a transient first failure yields
`None` although a second attempt would have succeeded. -/
theorem claim7_counterexample :
    attempts404ThenOk 0 = .reqError false
    ∧ download_with_requests attempts404ThenOk "downloads/f.pdf"
        = (some "downloads/f.pdf", 2)
    ∧ attemptsTransientThenOk 0 = .reqError true
    ∧ attemptsTransientThenOk 1 = .response 5
    ∧ downloadPdfLive attemptsTransientThenOk "downloads/f.pdf" = none := by
  decide

/-- C7 (amended): the live `_download_pdf` makes exactly one attempt (its
result depends only on attempt 0) with no retry and no zero-byte check; the
shadowed `_download_with_requests` makes at most two attempts, treats a
zero-byte response as a failure without retry, and retries after ANY
`RequestException` — transient or not — exactly once. -/
theorem claim7_theorem :
    (∀ (att att2 : Nat → AttemptResult) (p : String), att 0 = att2 0 →
        downloadPdfLive att p = downloadPdfLive att2 p)
    ∧ (∀ (att : Nat → AttemptResult) (p : String),
        (download_with_requests att p).2 ≤ 2)
    ∧ (∀ (att : Nat → AttemptResult) (p : String), att 0 = .response 0 →
        download_with_requests att p = (none, 1))
    ∧ (∀ (att : Nat → AttemptResult) (p : String) (t : Bool),
        att 0 = .reqError t → (download_with_requests att p).2 = 2) := by
  refine ⟨?_, ?_, ?_, ?_⟩
  · intro att att2 p h
    unfold downloadPdfLive
    rw [h]
  · intro att p
    cases h0 : att 0 with
    | response size =>
        rw [dwr_first_response att p size h0]
        by_cases hs : 0 < size
        · rw [if_pos hs]
          exact Nat.le_succ 1
        · rw [if_neg hs]
          exact Nat.le_succ 1
    | reqError t =>
        rw [dwr_first_error att p t h0]
        cases h1 : att 1 with
        | response size =>
            dsimp only
            by_cases hs : 0 < size
            · rw [if_pos hs]
            · rw [if_neg hs]
        | reqError t2 => exact Nat.le_refl 2
  · intro att p h0
    rw [dwr_first_response att p 0 h0]
    rfl
  · intro att p t h0
    rw [dwr_first_error att p t h0]
    cases h1 : att 1 with
    | response size =>
        dsimp only
        by_cases hs : 0 < size
        · rw [if_pos hs]
        · rw [if_neg hs]
    | reqError t2 => rfl

/-- C7 witness: the amended statement applied at concrete attempt oracles. -/
theorem claim7_witness :
    downloadPdfLive attemptsTransientThenOk "f.pdf"
        = downloadPdfLive (fun _ => .reqError true) "f.pdf"
    ∧ (download_with_requests attempts404ThenOk "f.pdf").2 ≤ 2
    ∧ download_with_requests attemptsEmptyBody "f.pdf" = (none, 1)
    ∧ (download_with_requests attempts404ThenOk "f.pdf").2 = 2 := by
  have h := claim7_theorem
  exact ⟨h.1 attemptsTransientThenOk (fun _ => .reqError true) "f.pdf" rfl,
    h.2.1 attempts404ThenOk "f.pdf",
    h.2.2.1 attemptsEmptyBody "f.pdf" rfl,
    h.2.2.2 attempts404ThenOk "f.pdf" false rfl⟩

/-- C8 counterexample: a one-row batch in which the row fully succeeds has
`processed = success = 1` and `failed = 0`, so the three counters sum to 2,
not to the row count 1. -/
theorem claim8_counterexample :
    (processFileLive (some ch0) envFnAllOk dfNoCol).finalRows.length = 1
    ∧ (processFileLive (some ch0) envFnAllOk dfNoCol).processed
        + (processFileLive (some ch0) envFnAllOk dfNoCol).success
        + (processFileLive (some ch0) envFnAllOk dfNoCol).failed = 2 := by
  decide

/-- C8 (amended): one row's failure never aborts the batch — the loop visits
every expanded row, and each iteration issues at least one status write and
bumps exactly one counter.  The live per-row processing never consults the
pandas index label it is handed (`TEST_BYPASS_DOWNLOAD_AND_UPLOAD` is
false), so the duplicated labels that expanded sibling rows share in the
source change neither outcomes nor counters.  The counters satisfy
`processed = success` and `success + failed = total expanded row count`; the
three-way sum `processed + success + failed` equals the total only when no
row succeeds.  No isolation is claimed for the final status cells: in the
source, label-based `df.at` writes of expanded siblings overwrite one
another's cells. -/
theorem claim8_theorem (ch : Option CloudHelper) (env : Nat → RowEnv)
    (df : DataFrame) :
    (runRows ch env (livePrepared df).rows 0).length
        = (livePrepared df).rows.length
    ∧ (∀ (env1 : RowEnv) (r : Row) (idx : Nat),
        ((processRowLive ch env1 r idx).finalStatus).isSome = true)
    ∧ (∀ (env1 : RowEnv) (r : Row) (idx idx2 : Nat),
        processRowLive ch env1 r idx = processRowLive ch env1 r idx2)
    ∧ (processFileLive ch env df).processed
        = (processFileLive ch env df).success
    ∧ (processFileLive ch env df).success
        + (processFileLive ch env df).failed
        = (livePrepared df).rows.length := by
  obtain ⟨hpe, hsum⟩ := processFileLive_counters ch env df
  refine ⟨runRows_length ch env _ 0,
    fun env1 r idx => processRowLive_status_isSome ch env1 r idx,
    fun env1 r idx idx2 => processRowLive_idx_irrelevant ch env1 r idx idx2,
    hpe, ?_⟩
  rw [hsum]
  unfold processFileLive
  dsimp only
  rw [List.length_map, runRows_length]

/-- C8 witness: the amended statement applied at a concrete one-row batch. -/
theorem claim8_witness :
    (runRows (some ch0) envFnAllOk (livePrepared dfNoCol).rows 0).length
        = (livePrepared dfNoCol).rows.length
    ∧ processRowLive (some ch0) envAllOk rowA 0
        = processRowLive (some ch0) envAllOk rowA 7
    ∧ (processFileLive (some ch0) envFnAllOk dfNoCol).processed
        = (processFileLive (some ch0) envFnAllOk dfNoCol).success
    ∧ (processFileLive (some ch0) envFnAllOk dfNoCol).success
        + (processFileLive (some ch0) envFnAllOk dfNoCol).failed
        = (livePrepared dfNoCol).rows.length := by
  have h := claim8_theorem (some ch0) envFnAllOk dfNoCol
  exact ⟨h.1, h.2.2.1 envAllOk rowA 0 7, h.2.2.2.1, h.2.2.2.2⟩

/-- C9 counterexample: a row that passes the upload but fails the MongoDB
insert has its `status` field written twice — first "SUCCESS", then
"FAILED: MongoDB insert failed" — so the fields are not mutated exactly once
at a single terminal stage. -/
theorem claim9_counterexample :
    writeCount (processRowLive (some ch0) envMongoFail rowA 0) "status" = 2
    ∧ (processRowLive (some ch0) envMongoFail rowA 0).writes.map Prod.fst
        = ["file_hash", "s3_link", "status", "status"] := by
  decide

/-- C9 (amended): per row, `file_hash` and `s3_link` are each written at most
once; `status` is written at least once and at most twice (twice exactly on
rows that pass the upload, where SUCCESS is overwritten by a later
persistence failure); on a fully successful row `status` is written exactly
once. -/
theorem claim9_theorem (ch : Option CloudHelper) (env : RowEnv)
    (r : Row) (idx : Nat) :
    writeCount (processRowLive ch env r idx) "file_hash" ≤ 1
    ∧ writeCount (processRowLive ch env r idx) "s3_link" ≤ 1
    ∧ 1 ≤ writeCount (processRowLive ch env r idx) "status"
    ∧ writeCount (processRowLive ch env r idx) "status" ≤ 2
    ∧ ((processRowLive ch env r idx).outcome = .success →
        writeCount (processRowLive ch env r idx) "status" = 1) := by
  unfold processRowLive persistStages
  dsimp only
  repeat' split
  all_goals refine ⟨?_, ?_, ?_, ?_, fun h => ?_⟩
  all_goals simp_all [writeCount, TEST_BYPASS_DOWNLOAD_AND_UPLOAD]

/-- C9 witness: the amended statement applied at a concrete successful row. -/
theorem claim9_witness :
    writeCount (processRowLive (some ch0) envAllOk rowA 0) "status" ≤ 2
    ∧ ((processRowLive (some ch0) envAllOk rowA 0).outcome = .success →
        writeCount (processRowLive (some ch0) envAllOk rowA 0) "status" = 1) := by
  have h := claim9_theorem (some ch0) envAllOk rowA 0
  exact ⟨h.2.2.2.1, h.2.2.2.2⟩

/-- C10: when the loaded table has no `external_file_link` column, the
`file_link` cell of every row is overwritten with the synthesized URL
`https://files.finkraft.ai/invoices/file_{i+1}.pdf` before link expansion
(regardless of what any existing `file_link` column contained), and no row is
added or dropped by that step. -/
theorem claim10_theorem (df : DataFrame) (i : Nat)
    (h1 : "external_file_link" ∉ df.cols) (h2 : i < df.rows.length) :
    ((addDummyFileLink df).rows[i]?).map (fun r => r.get "file_link")
        = some (some (synthUrl i))
    ∧ (addDummyFileLink df).rows.length = df.rows.length := by
  unfold addDummyFileLink
  rw [if_neg h1]
  unfold DataFrame.setColumn
  constructor
  · rw [setColCells_getElem?, List.getElem?_eq_getElem h2]
    simp [Row.get_set]
  · rw [setColCells_length]

/-- C10 witness: the statement applied at a table whose `file_link` column
already held a genuine reference — the reference is overwritten. -/
theorem claim10_witness :
    "external_file_link" ∉ dfWithFileLink.cols
    ∧ (dfWithFileLink.rows.map (fun r => r.get "file_link"))
        = [some "invoices/orig.pdf"]
    ∧ ((addDummyFileLink dfWithFileLink).rows[0]?).map
        (fun r => r.get "file_link") = some (some (synthUrl 0)) := by
  have h := claim10_theorem dfWithFileLink 0 (by decide) (by decide)
  exact ⟨by decide, by decide, h.1⟩

end ExpenseExporter
